import Mathlib

/-!
Verification of the oc-proxy gateway core (pkg/proxy/proxy.go).

The Go code is shallowly embedded. Go strings are modelled as their decoded
character sequences (`List Char`); every string constant appearing in the
source is ASCII, where Go's byte-level length/slicing operations coincide
with the character-level ones used here. Fallible or branching handlers are
modelled as pure functions from an explicit request value and response-writer
state to the resulting response-writer state plus an indication of what else
happened (next handler called, cookie set, ...).

The response writer follows net/http semantics: `Header().Set` mutates the
header map, but only the snapshot of the map taken at the first
`WriteHeader`/`Write` call is transmitted on the wire; later mutations of the
map have no effect on the sent response.
-/

namespace OcProxy

/-- Characters of a Go string. -/
abbrev GoString := List Char

/-- Fixed session cookie name (`ocgateSessionCookieName` in proxy.go). -/
def ocgateSessionCookieName : GoString := "ocgate-session-token".data

/-- The fields of `Server` (proxy.go) that the request-path logic reads.
`upstreamHost`/`upstreamScheme` are the `Host` and `Scheme` components of the
parsed `APIServerURL` (`url.Parse` is consumed as a capability: the URL is
modelled already split into its components). -/
structure Server where
  APIPath : GoString
  upstreamHost : GoString
  upstreamScheme : GoString
  LoginEndpoint : GoString
  BearerToken : GoString
  BearerTokenPassthrough : Bool
  InteractiveAuth : Bool
deriving DecidableEq

/-- An inbound request, restricted to the fields proxy.go reads.
`authorization` is `r.Header.Get("Authorization")`, which is `""` when the
header is absent. `sessionCookie` is the value of the cookie named
`ocgate-session-token`: `none` when `r.Cookie` fails with `ErrNoCookie`,
`some v` (possibly empty) when the cookie is present. -/
structure Request where
  method : GoString
  path : GoString
  authorization : GoString
  sessionCookie : Option GoString
deriving DecidableEq

/-- The error value `r.Cookie` returns when the cookie is absent. -/
inductive CookieErr where
  | errNoCookie
deriving DecidableEq

/-- GetRequestToken (proxy.go): return the token from the `Authorization`
header when it is longer than 7 characters and starts with the literal
`Bearer ` prefix; otherwise fall back to the session cookie, returning
`("", err)` when the cookie is absent or its value is empty. -/
def GetRequestToken (r : Request) : GoString × Option CookieErr :=
  if 7 < r.authorization.length ∧ r.authorization.take 7 = "Bearer ".data then
    (r.authorization.drop 7, none)
  else
    match r.sessionCookie with
    | none => ([], some .errNoCookie)
    | some v => if v = [] then ([], none) else (v, none)

/-- State of an `http.ResponseWriter`: the mutable header map, the status
written (if any), and the headers/body actually transmitted. Per net/http,
the transmitted headers are the snapshot of the map at the moment the status
is first written. -/
structure ResponseWriter where
  headerMap : List (GoString × GoString)
  wroteStatus : Option Nat
  wireHeaders : List (GoString × GoString)
  wireBody : GoString
deriving DecidableEq

/-- A freshly allocated response writer. -/
def ResponseWriter.empty : ResponseWriter :=
  { headerMap := [], wroteStatus := none, wireHeaders := [], wireBody := [] }

/-- w.Header().Set(k, v): replace the map entry for `k`. This mutates only
the map; it does not alter the already-transmitted headers. -/
def HeaderSet (w : ResponseWriter) (k v : GoString) : ResponseWriter :=
  { w with headerMap := (k, v) :: w.headerMap.filter (fun kv => kv.1 ≠ k) }

/-- w.WriteHeader(code): transmit the status and the current header map.
A second call is a no-op (net/http logs and ignores it). -/
def WriteHeader (w : ResponseWriter) (code : Nat) : ResponseWriter :=
  match w.wroteStatus with
  | some _ => w
  | none => { w with wroteStatus := some code, wireHeaders := w.headerMap }

/-- w.Write(b) / fmt.Fprintf(w, ...): append to the body, first implicitly
writing status 200 if no status was written yet. -/
def Write (w : ResponseWriter) (b : GoString) : ResponseWriter :=
  match w.wroteStatus with
  | some _ => { w with wireBody := w.wireBody ++ b }
  | none =>
    { w with wroteStatus := some 200, wireHeaders := w.headerMap,
             wireBody := w.wireBody ++ b }

/-- http.Redirect(w, r, location, code): set the `Location` header, then
write the status. (The short HTML body net/http adds for GET requests is not
modelled; no claim concerns it.) -/
def Redirect (w : ResponseWriter) (location : GoString) (code : Nat) :
    ResponseWriter :=
  WriteHeader (HeaderSet w "Location".data location) code

/-- The body produced by handleError's fmt.Fprintf format string, with the
error message substituted for the `%s` verb and 403 for the `%d` verb. -/
def forbiddenBody (msg : GoString) : GoString :=
  "\x7b\"kind\": \"Status\", \"api\": \"ocgate\", \"status\": \"Forbidden\", \"message\": \"".data
    ++ msg ++ "\",\"code\": 403\x7d".data

/-- handleError (proxy.go): write status 403, then set `Content-Type` on the
header map, then print the fixed JSON body. The calls are modelled in the
source's order: the status is written before the Content-Type is set. -/
def handleError (w : ResponseWriter) (msg : GoString) : ResponseWriter :=
  Write (HeaderSet (WriteHeader w 403) "Content-Type".data "application/json".data)
    (forbiddenBody msg)

/-- Whether, and with which `Authorization` header value, the wrapped `next`
handler was invoked by the middleware. `called a` records that the request
handed to `next` carries `a` as its `Authorization` header (`[]` standing for
an absent header, as in `Request.authorization`). -/
inductive NextCall where
  | notCalled
  | called (authorizationHeader : GoString)
deriving DecidableEq

/-- AuthMiddleware (proxy.go). `validateToken` abstracts the JWT validator
the middleware calls (its definition lives outside pkg/proxy/proxy.go); the
key material and `s.APIPath` arguments the source passes to it are constants
of the configuration, so it is abstracted as a function of the remaining
per-request arguments (token, method, path), returning `none` on success and
`some errorMessage` on failure, matching the `(claims, err)` result the
middleware branches on. -/
def AuthMiddleware (s : Server)
    (validateToken : GoString → GoString → GoString → Option GoString)
    (w : ResponseWriter) (r : Request) : ResponseWriter × NextCall :=
  if r.path = "/login.html".data then
    (w, .called r.authorization)
  else if s.InteractiveAuth = true ∧ (GetRequestToken r).1 = [] then
    (Redirect w s.LoginEndpoint 307, .notCalled)
  else if (GetRequestToken r).1 = [] then
    (handleError w "no token received".data, .notCalled)
  else if s.BearerTokenPassthrough = true then
    (w, .called ("Bearer ".data ++ (GetRequestToken r).1))
  else if r.path.length ≤ s.APIPath.length ∨
      r.path.take s.APIPath.length ≠ s.APIPath then
    (w, .called r.authorization)
  else
    match validateToken (GetRequestToken r).1 r.method r.path with
    | some e => (handleError w e, .notCalled)
    | none => (w, .called ("Bearer ".data ++ s.BearerToken))

/-- The outbound request produced by the forwarder's header-rewrite step:
the fields of `r.URL` that APIProxy mutates before handing the request to
the reverse proxy. -/
structure OutboundRequest where
  host : GoString
  scheme : GoString
  path : GoString
deriving DecidableEq

/-- APIProxy (proxy.go): rewrite the request URL's host and scheme to the
parsed upstream URL's, and drop the first `len(s.APIPath) - 1` characters of
the path. The relay itself (`proxy.ServeHTTP`) is consumed as a capability. -/
def APIProxy (s : Server) (r : Request) : OutboundRequest :=
  { host := s.upstreamHost, scheme := s.upstreamScheme,
    path := r.path.drop (s.APIPath.length - 1) }

/-- The request fields the manual-login handler `Token` reads: the method,
the `token`/`then` parameters of the URL query string (`url.Values.Get`
semantics: empty when absent), and the `token`/`then` fields of the parsed
POST form body (`none` when the body lacks the field, `some v` when it
carries it, `v` possibly empty). -/
structure TokenRequest where
  method : GoString
  queryToken : GoString
  queryThen : GoString
  formToken : Option GoString
  formThen : Option GoString
deriving DecidableEq

/-- r.FormValue(key): the first value of the merged form, in which parsed
POST-body parameters take precedence over URL query string values; when the
body lacks the field, the URL query value is used (empty when absent there
too). -/
def FormValue (bodyField : Option GoString) (queryField : GoString) :
    GoString :=
  match bodyField with
  | some v => v
  | none => queryField

/-- The `token` variable of `Token` (proxy.go) after the two method
branches: the query parameter for GET, r.FormValue("token") for POST
(body field with URL-query fallback), empty otherwise. -/
def tokenParam (r : TokenRequest) : GoString :=
  if r.method = "GET".data then r.queryToken
  else if r.method = "POST".data then FormValue r.formToken r.queryToken
  else []

/-- The `then` variable of `Token` (proxy.go) after the two method
branches: the query parameter for GET, r.FormValue("then") for POST. -/
def thenParam (r : TokenRequest) : GoString :=
  if r.method = "GET".data then r.queryThen
  else if r.method = "POST".data then FormValue r.formThen r.queryThen
  else []

/-- A session cookie as set by http.SetCookie in `Token`. -/
structure Cookie where
  name : GoString
  value : GoString
  cookiePath : GoString
  sameSiteLax : Bool
  httpOnly : Bool
deriving DecidableEq

/-- Token (proxy.go), the manual-login handler: reject an empty token with
handleError; otherwise set the session cookie to the token and redirect
(302, http.StatusFound) to the `then` target, defaulting to "/". The cookie
is set before the redirect is written, so it is transmitted; it is returned
as a separate component. -/
def Token (w : ResponseWriter) (r : TokenRequest) :
    ResponseWriter × Option Cookie :=
  if tokenParam r = [] then
    (handleError w "token parameter is missing".data, none)
  else
    (Redirect w (if thenParam r = [] then "/".data else thenParam r) 302,
     some { name := ocgateSessionCookieName, value := tokenParam r,
            cookiePath := "/".data, sameSiteLax := true, httpOnly := true })

/-- A concrete gateway configuration in translate mode, headless. -/
def exampleServer : Server :=
  { APIPath := "/k8s/".data, upstreamHost := "kubernetes.default.svc".data,
    upstreamScheme := "https".data, LoginEndpoint := "/auth/login".data,
    BearerToken := "svc".data, BearerTokenPassthrough := false,
    InteractiveAuth := false }

/-- The configuration of `exampleServer` switched to pass-through mode. -/
def exampleServerPassthrough : Server :=
  { exampleServer with BearerTokenPassthrough := true }

/-- The configuration of `exampleServer` with interactive login enabled. -/
def exampleServerInteractive : Server :=
  { exampleServer with InteractiveAuth := true }

/-- A concrete validator accepting exactly the token "good". -/
def exampleValidate : GoString → GoString → GoString → Option GoString :=
  fun t _ _ => if t = "good".data then none else some "invalid token".data

/-- A concrete API request carrying the accepted bearer token. -/
def exReqGood : Request :=
  { method := "GET".data, path := "/k8s/pods".data,
    authorization := "Bearer good".data, sessionCookie := none }

/-- A concrete API request carrying a rejected bearer token. -/
def exReqBad : Request :=
  { method := "GET".data, path := "/k8s/pods".data,
    authorization := "Bearer bad".data, sessionCookie := none }

/-- A concrete credentialless API request. -/
def exReqAnon : Request :=
  { method := "GET".data, path := "/api/v1/pods".data,
    authorization := [], sessionCookie := none }

/-- A concrete manual-login POST carrying token=abc123 and then=/dash as
form-body fields. -/
def exFormPost : TokenRequest :=
  { method := "POST".data, queryToken := [], queryThen := [],
    formToken := some "abc123".data, formThen := some "/dash".data }

/-- A concrete manual-login POST whose token arrives only in the URL query
string, reaching the form value through FormValue's query fallback. -/
def exQueryPost : TokenRequest :=
  { method := "POST".data, queryToken := "abc".data, queryThen := [],
    formToken := none, formThen := none }

/-- Unfolding of `WriteHeader` when no status has been written yet. -/
lemma writeHeader_of_none (w : ResponseWriter) (code : Nat)
    (hw : w.wroteStatus = none) :
    WriteHeader w code =
      { w with wroteStatus := some code, wireHeaders := w.headerMap } := by
  unfold WriteHeader
  rw [hw]

/-- Unfolding of `Write` once a status has been written. -/
lemma write_of_some (w : ResponseWriter) (b : GoString) (c : Nat)
    (hw : w.wroteStatus = some c) :
    Write w b = { w with wireBody := w.wireBody ++ b } := by
  unfold Write
  rw [hw]

/-- `Redirect` on a fresh-status writer: the status is transmitted together
with the `Location` header. -/
lemma redirect_of_none (w : ResponseWriter) (location : GoString) (code : Nat)
    (hw : w.wroteStatus = none) :
    Redirect w location code =
      { headerMap := ("Location".data, location) ::
          w.headerMap.filter (fun kv => kv.1 ≠ "Location".data),
        wroteStatus := some code,
        wireHeaders := ("Location".data, location) ::
          w.headerMap.filter (fun kv => kv.1 ≠ "Location".data),
        wireBody := w.wireBody } := by
  unfold Redirect HeaderSet
  rw [writeHeader_of_none _ code (by simpa using hw)]

/-- `handleError` on a fresh-status writer: status 403 is transmitted with
the pre-existing header map (the Content-Type entry joins only the mutable
map), and the fixed JSON body is appended. -/
lemma handleError_of_none (w : ResponseWriter) (msg : GoString)
    (hw : w.wroteStatus = none) :
    handleError w msg =
      { headerMap := ("Content-Type".data, "application/json".data) ::
          w.headerMap.filter (fun kv => kv.1 ≠ "Content-Type".data),
        wroteStatus := some 403,
        wireHeaders := w.headerMap,
        wireBody := w.wireBody ++ forbiddenBody msg } := by
  unfold handleError HeaderSet
  rw [writeHeader_of_none _ 403 hw]
  rw [write_of_some _ _ 403 rfl]

/-- Claim C5: for every request whose Authorization header begins with the
seven-character, case-sensitive prefix "Bearer " followed by a non-empty
remainder X, GetRequestToken returns exactly X (with no error), regardless
of the presence or contents of the session cookie. -/
theorem c5_bearer_header_extraction (r : Request) (X : GoString) (hX : X ≠ [])
    (hauth : r.authorization = "Bearer ".data ++ X) :
    GetRequestToken r = (X, none) := by
  have h7 : ("Bearer ".data).length = 7 := rfl
  have hlen : 7 < r.authorization.length := by
    rw [hauth, List.length_append, h7]
    have := List.length_pos.mpr hX
    omega
  have htake : r.authorization.take 7 = "Bearer ".data := by
    rw [hauth, ← h7, List.take_left]
  have hdrop : r.authorization.drop 7 = X := by
    rw [hauth, ← h7, List.drop_left]
  unfold GetRequestToken
  rw [if_pos ⟨hlen, htake⟩, hdrop]

/-- Witness for C5: Authorization "Bearer abc" yields token "abc" even with
a session cookie "zzz" present. -/
theorem c5_bearer_header_extraction_witness :
    GetRequestToken
      { method := "GET".data, path := "/k8s/pods".data,
        authorization := "Bearer abc".data, sessionCookie := some "zzz".data }
      = ("abc".data, none) :=
  c5_bearer_header_extraction
    { method := "GET".data, path := "/k8s/pods".data,
      authorization := "Bearer abc".data, sessionCookie := some "zzz".data }
    "abc".data (by decide) (by decide)

/-- Claim C6: for every request whose Authorization header does not pass the
Bearer test, GetRequestToken returns the session cookie's value Y when that
cookie is present with a non-empty value, and returns the empty string (with
the lookup error) when the cookie is absent. -/
theorem c6_cookie_fallback (r : Request)
    (hauth : ¬(7 < r.authorization.length ∧
      r.authorization.take 7 = "Bearer ".data)) :
    (∀ Y, Y ≠ [] → r.sessionCookie = some Y → GetRequestToken r = (Y, none)) ∧
    (r.sessionCookie = none →
      GetRequestToken r = ([], some .errNoCookie)) := by
  constructor
  · intro Y hY hc
    unfold GetRequestToken
    rw [if_neg hauth, hc]
    simp [hY]
  · intro hc
    unfold GetRequestToken
    rw [if_neg hauth, hc]

/-- Witness for C6: with no Authorization header, a cookie valued "tok"
is returned; with neither source, the empty result is returned. -/
theorem c6_cookie_fallback_witness :
    GetRequestToken
      { method := "GET".data, path := "/k8s/pods".data,
        authorization := [], sessionCookie := some "tok".data }
      = ("tok".data, none) ∧
    GetRequestToken
      { method := "GET".data, path := "/k8s/pods".data,
        authorization := [], sessionCookie := none }
      = ([], some .errNoCookie) :=
  ⟨(c6_cookie_fallback
      { method := "GET".data, path := "/k8s/pods".data,
        authorization := [], sessionCookie := some "tok".data }
      (by decide)).1 "tok".data (by decide) rfl,
   (c6_cookie_fallback
      { method := "GET".data, path := "/k8s/pods".data,
        authorization := [], sessionCookie := none }
      (by decide)).2 rfl⟩

/-- Claim C10: an Authorization header that is exactly "Bearer " with an
empty remainder, together with a session cookie that is absent or present
with an empty value, is treated like an absent credential: GetRequestToken
returns the empty string, and the middleware takes the missing-credential
branch (307 redirect in interactive mode, 403 error otherwise) instead of
forwarding. -/
theorem c10_empty_credentials_like_absent (s : Server)
    (validateToken : GoString → GoString → GoString → Option GoString)
    (w : ResponseWriter) (r : Request)
    (hauth : r.authorization = "Bearer ".data)
    (hcookie : r.sessionCookie = none ∨ r.sessionCookie = some [])
    (hlogin : r.path ≠ "/login.html".data) :
    (GetRequestToken r).1 = [] ∧
    (s.InteractiveAuth = true →
      AuthMiddleware s validateToken w r =
        (Redirect w s.LoginEndpoint 307, .notCalled)) ∧
    (s.InteractiveAuth = false →
      AuthMiddleware s validateToken w r =
        (handleError w "no token received".data, .notCalled)) := by
  have hget : (GetRequestToken r).1 = [] := by
    unfold GetRequestToken
    rw [hauth, if_neg (by decide)]
    rcases hcookie with hc | hc <;> simp [hc]
  refine ⟨hget, ?_, ?_⟩
  · intro hi
    unfold AuthMiddleware
    rw [if_neg hlogin, if_pos ⟨hi, hget⟩]
  · intro hi
    unfold AuthMiddleware
    rw [if_neg hlogin, if_neg (by rw [hi]; simp), if_pos hget]

/-- Witness for C10: Authorization exactly "Bearer " plus an empty-valued
cookie produce an empty token and, in headless mode, the 403 error branch. -/
theorem c10_empty_credentials_like_absent_witness :
    (GetRequestToken
      { method := "GET".data, path := "/k8s/pods".data,
        authorization := "Bearer ".data, sessionCookie := some [] }).1 = [] ∧
    (exampleServer.InteractiveAuth = true →
      AuthMiddleware exampleServer exampleValidate ResponseWriter.empty
        { method := "GET".data, path := "/k8s/pods".data,
          authorization := "Bearer ".data, sessionCookie := some [] } =
        (Redirect ResponseWriter.empty exampleServer.LoginEndpoint 307,
         .notCalled)) ∧
    (exampleServer.InteractiveAuth = false →
      AuthMiddleware exampleServer exampleValidate ResponseWriter.empty
        { method := "GET".data, path := "/k8s/pods".data,
          authorization := "Bearer ".data, sessionCookie := some [] } =
        (handleError ResponseWriter.empty "no token received".data,
         .notCalled)) :=
  c10_empty_credentials_like_absent exampleServer exampleValidate
    ResponseWriter.empty
    { method := "GET".data, path := "/k8s/pods".data,
      authorization := "Bearer ".data, sessionCookie := some [] }
    (by decide) (Or.inr rfl) (by decide)

/-- Claim C1: in translate mode, for a request under the protected API path
carrying a credential, the middleware calls the next handler if and only if
validateToken succeeds; on any failure it writes the authorization error
response and returns without calling the next handler. -/
theorem c1_translate_forward_iff_validate (s : Server)
    (validateToken : GoString → GoString → GoString → Option GoString)
    (w : ResponseWriter) (r : Request)
    (hlogin : r.path ≠ "/login.html".data)
    (htok : (GetRequestToken r).1 ≠ [])
    (hpt : s.BearerTokenPassthrough = false)
    (hlen : s.APIPath.length < r.path.length)
    (hpre : r.path.take s.APIPath.length = s.APIPath) :
    ((AuthMiddleware s validateToken w r).2 ≠ NextCall.notCalled ↔
      validateToken (GetRequestToken r).1 r.method r.path = none) ∧
    ∀ e, validateToken (GetRequestToken r).1 r.method r.path = some e →
      AuthMiddleware s validateToken w r = (handleError w e, .notCalled) := by
  have hred : AuthMiddleware s validateToken w r =
      match validateToken (GetRequestToken r).1 r.method r.path with
      | some e => (handleError w e, .notCalled)
      | none => (w, .called ("Bearer ".data ++ s.BearerToken)) := by
    unfold AuthMiddleware
    rw [if_neg hlogin, if_neg (fun h => htok h.2), if_neg htok,
        if_neg (by rw [hpt]; simp),
        if_neg (by push_neg; exact ⟨hlen, hpre⟩)]
  constructor
  · rw [hred]
    cases hv : validateToken (GetRequestToken r).1 r.method r.path with
    | none => simp
    | some e => simp
  · intro e he
    rw [hred, he]

/-- Witness for C1 at a concrete translate-mode configuration and a request
whose token the concrete validator accepts. -/
theorem c1_translate_forward_iff_validate_witness :
    ((AuthMiddleware exampleServer exampleValidate ResponseWriter.empty
        exReqGood).2 ≠ NextCall.notCalled ↔
      exampleValidate (GetRequestToken exReqGood).1 exReqGood.method
        exReqGood.path = none) ∧
    ∀ e, exampleValidate (GetRequestToken exReqGood).1 exReqGood.method
        exReqGood.path = some e →
      AuthMiddleware exampleServer exampleValidate ResponseWriter.empty
        exReqGood = (handleError ResponseWriter.empty e, .notCalled) :=
  c1_translate_forward_iff_validate exampleServer exampleValidate
    ResponseWriter.empty exReqGood (by decide) (by decide) rfl
    (by decide) (by decide)

/-- Claim C2: the Authorization header attached before forwarding is
"Bearer " ++ the caller credential in pass-through mode, and
"Bearer " ++ the configured service credential in translate mode after
successful verification, whatever the caller credential contained. -/
theorem c2_outbound_identity (s : Server)
    (validateToken : GoString → GoString → GoString → Option GoString)
    (w : ResponseWriter) (r : Request)
    (hlogin : r.path ≠ "/login.html".data)
    (htok : (GetRequestToken r).1 ≠ []) :
    (s.BearerTokenPassthrough = true →
      AuthMiddleware s validateToken w r =
        (w, .called ("Bearer ".data ++ (GetRequestToken r).1))) ∧
    (s.BearerTokenPassthrough = false →
      s.APIPath.length < r.path.length →
      r.path.take s.APIPath.length = s.APIPath →
      validateToken (GetRequestToken r).1 r.method r.path = none →
      AuthMiddleware s validateToken w r =
        (w, .called ("Bearer ".data ++ s.BearerToken))) := by
  constructor
  · intro hpt
    unfold AuthMiddleware
    rw [if_neg hlogin, if_neg (fun h => htok h.2), if_neg htok, if_pos hpt]
  · intro hpt hlen hpre hv
    unfold AuthMiddleware
    rw [if_neg hlogin, if_neg (fun h => htok h.2), if_neg htok,
        if_neg (by rw [hpt]; simp),
        if_neg (by push_neg; exact ⟨hlen, hpre⟩), hv]

/-- Witness for C2 at a concrete request: in pass-through mode the caller's
own token is attached; in translate mode the service token is attached. -/
theorem c2_outbound_identity_witness :
    (exampleServerPassthrough.BearerTokenPassthrough = true →
      AuthMiddleware exampleServerPassthrough exampleValidate
        ResponseWriter.empty exReqGood =
        (ResponseWriter.empty,
         .called ("Bearer ".data ++ (GetRequestToken exReqGood).1))) ∧
    (exampleServerPassthrough.BearerTokenPassthrough = false →
      exampleServerPassthrough.APIPath.length < exReqGood.path.length →
      exReqGood.path.take exampleServerPassthrough.APIPath.length =
        exampleServerPassthrough.APIPath →
      exampleValidate (GetRequestToken exReqGood).1 exReqGood.method
        exReqGood.path = none →
      AuthMiddleware exampleServerPassthrough exampleValidate
        ResponseWriter.empty exReqGood =
        (ResponseWriter.empty,
         .called ("Bearer ".data ++ exampleServerPassthrough.BearerToken))) :=
  c2_outbound_identity exampleServerPassthrough exampleValidate
    ResponseWriter.empty exReqGood (by decide) (by decide)

/-- Claim C7: for every request other than to /login.html from which no
credential is extracted, the middleware answers with a 307 redirect to the
login endpoint in interactive mode, and with the fixed 403 Forbidden JSON
error otherwise; in both cases the next handler is not called. -/
theorem c7_no_credential_redirect_or_403 (s : Server)
    (validateToken : GoString → GoString → GoString → Option GoString)
    (w : ResponseWriter) (r : Request)
    (hw : w.wroteStatus = none)
    (hlogin : r.path ≠ "/login.html".data)
    (htok : (GetRequestToken r).1 = []) :
    (s.InteractiveAuth = true →
      AuthMiddleware s validateToken w r =
        (Redirect w s.LoginEndpoint 307, .notCalled) ∧
      (Redirect w s.LoginEndpoint 307).wroteStatus = some 307 ∧
      ("Location".data, s.LoginEndpoint) ∈
        (Redirect w s.LoginEndpoint 307).wireHeaders) ∧
    (s.InteractiveAuth = false →
      AuthMiddleware s validateToken w r =
        (handleError w "no token received".data, .notCalled) ∧
      (handleError w "no token received".data).wroteStatus = some 403 ∧
      (handleError w "no token received".data).wireBody =
        w.wireBody ++ forbiddenBody "no token received".data) := by
  constructor
  · intro hi
    refine ⟨?_, ?_, ?_⟩
    · unfold AuthMiddleware
      rw [if_neg hlogin, if_pos ⟨hi, htok⟩]
    · rw [redirect_of_none _ _ _ hw]
    · rw [redirect_of_none _ _ _ hw]
      exact List.mem_cons_self _ _
  · intro hi
    refine ⟨?_, ?_, ?_⟩
    · unfold AuthMiddleware
      rw [if_neg hlogin, if_neg (by rw [hi]; simp), if_pos htok]
    · rw [handleError_of_none _ _ hw]
    · rw [handleError_of_none _ _ hw]

/-- Witness for C7: a credentialless API request on a headless gateway gets
the 403 error with the fixed JSON body, and the next handler is not run. -/
theorem c7_no_credential_redirect_or_403_witness :
    (exampleServer.InteractiveAuth = true →
      AuthMiddleware exampleServer exampleValidate ResponseWriter.empty
        exReqAnon =
        (Redirect ResponseWriter.empty exampleServer.LoginEndpoint 307,
         .notCalled) ∧
      (Redirect ResponseWriter.empty exampleServer.LoginEndpoint
        307).wroteStatus = some 307 ∧
      ("Location".data, exampleServer.LoginEndpoint) ∈
        (Redirect ResponseWriter.empty exampleServer.LoginEndpoint
          307).wireHeaders) ∧
    (exampleServer.InteractiveAuth = false →
      AuthMiddleware exampleServer exampleValidate ResponseWriter.empty
        exReqAnon =
        (handleError ResponseWriter.empty "no token received".data,
         .notCalled) ∧
      (handleError ResponseWriter.empty
        "no token received".data).wroteStatus = some 403 ∧
      (handleError ResponseWriter.empty "no token received".data).wireBody =
        ResponseWriter.empty.wireBody ++
          forbiddenBody "no token received".data) :=
  c7_no_credential_redirect_or_403 exampleServer exampleValidate
    ResponseWriter.empty exReqAnon rfl (by decide) (by decide)

/-- Claim C9: in translate mode, a request with a credential whose path is
not strictly longer than the protected prefix, or does not begin with it,
is forwarded to the next handler without running the validator (the result
does not depend on the validator at all) and without rewriting the
Authorization header. -/
theorem c9_static_path_skips_validation (s : Server)
    (validateTokenA validateTokenB :
      GoString → GoString → GoString → Option GoString)
    (w : ResponseWriter) (r : Request)
    (hlogin : r.path ≠ "/login.html".data)
    (htok : (GetRequestToken r).1 ≠ [])
    (hpt : s.BearerTokenPassthrough = false)
    (hskip : r.path.length ≤ s.APIPath.length ∨
      r.path.take s.APIPath.length ≠ s.APIPath) :
    AuthMiddleware s validateTokenA w r = (w, .called r.authorization) ∧
    AuthMiddleware s validateTokenA w r =
      AuthMiddleware s validateTokenB w r := by
  have h : ∀ v : GoString → GoString → GoString → Option GoString,
      AuthMiddleware s v w r = (w, .called r.authorization) := by
    intro v
    unfold AuthMiddleware
    rw [if_neg hlogin, if_neg (fun h => htok h.2), if_neg htok,
        if_neg (by rw [hpt]; simp), if_pos hskip]
  exact ⟨h validateTokenA, (h validateTokenA).trans (h validateTokenB).symm⟩

/-- Witness for C9: a request whose path equals the protected prefix exactly
is forwarded unchanged, with the middleware result independent of the two
distinct concrete validators. -/
theorem c9_static_path_skips_validation_witness :
    AuthMiddleware exampleServer exampleValidate ResponseWriter.empty
      { method := "GET".data, path := "/k8s/".data,
        authorization := "Bearer good".data, sessionCookie := none } =
      (ResponseWriter.empty, .called "Bearer good".data) ∧
    AuthMiddleware exampleServer exampleValidate ResponseWriter.empty
      { method := "GET".data, path := "/k8s/".data,
        authorization := "Bearer good".data, sessionCookie := none } =
    AuthMiddleware exampleServer (fun _ _ _ => some "always fails".data)
      ResponseWriter.empty
      { method := "GET".data, path := "/k8s/".data,
        authorization := "Bearer good".data, sessionCookie := none } :=
  c9_static_path_skips_validation exampleServer exampleValidate
    (fun _ _ _ => some "always fails".data) ResponseWriter.empty
    { method := "GET".data, path := "/k8s/".data,
      authorization := "Bearer good".data, sessionCookie := none }
    (by decide) (by decide) rfl (by decide)

/-- Claim C3: for a request whose path is the protected API path prefix
(written, as the deployed configuration does, with its trailing slash)
followed by a suffix, the forwarder rewrites host and scheme to the
upstream's and strips the prefix while retaining the leading slash, so a
path `APIPath ++ suffix` is forwarded as `/ ++ suffix`. -/
theorem c3_forwarder_rewrite (s : Server) (r : Request) (q suffix : GoString)
    (hslash : s.APIPath = q ++ ['/'])
    (hpath : r.path = s.APIPath ++ suffix) :
    (APIProxy s r).host = s.upstreamHost ∧
    (APIProxy s r).scheme = s.upstreamScheme ∧
    (APIProxy s r).path = '/' :: suffix := by
  refine ⟨rfl, rfl, ?_⟩
  show r.path.drop (s.APIPath.length - 1) = '/' :: suffix
  have hlen : s.APIPath.length - 1 = q.length := by
    rw [hslash, List.length_append]
    simp
  rw [hpath, hlen, hslash, List.append_assoc, List.singleton_append,
    List.drop_left]

/-- Witness for C3: with prefix "/k8s/", a request to "/k8s/pods" is
forwarded to the upstream host and scheme with path "/pods". -/
theorem c3_forwarder_rewrite_witness :
    (APIProxy exampleServer exReqGood).host = exampleServer.upstreamHost ∧
    (APIProxy exampleServer exReqGood).scheme = exampleServer.upstreamScheme ∧
    (APIProxy exampleServer exReqGood).path = '/' :: "pods".data :=
  c3_forwarder_rewrite exampleServer exReqGood "/k8s".data "pods".data
    (by decide) (by decide)

/-- Claim C4, evaluated at the concrete failure the middleware produces for
a missing token: handleError transmits status 403 and the fixed JSON body,
but because WriteHeader(403) runs before Header().Set("Content-Type", ...),
the Content-Type entry reaches only the mutable header map and is absent
from the transmitted headers. -/
theorem c4_content_type_set_after_status :
    (handleError ResponseWriter.empty "no token received".data).wroteStatus =
      some 403 ∧
    (handleError ResponseWriter.empty "no token received".data).wireBody =
      forbiddenBody "no token received".data ∧
    ("Content-Type".data, "application/json".data) ∈
      (handleError ResponseWriter.empty "no token received".data).headerMap ∧
    ("Content-Type".data, "application/json".data) ∉
      (handleError ResponseWriter.empty
        "no token received".data).wireHeaders := by
  refine ⟨rfl, rfl, ?_, ?_⟩ <;> decide

/-- Claim C8: the manual token endpoint takes `token` from the GET query or
the POST form, with `then` defaulting to "/"; an empty token yields a
400-class error (status 403) and no cookie, and a non-empty token T sets the
session cookie to T and redirects (302) to `then`. -/
theorem c8_manual_token_endpoint (w : ResponseWriter) (r : TokenRequest)
    (hw : w.wroteStatus = none) :
    (tokenParam r = [] →
      Token w r = (handleError w "token parameter is missing".data, none) ∧
      (Token w r).1.wroteStatus = some 403 ∧ 400 ≤ 403 ∧ 403 < 500) ∧
    (tokenParam r ≠ [] →
      (Token w r).2 =
        some { name := ocgateSessionCookieName, value := tokenParam r,
               cookiePath := "/".data, sameSiteLax := true,
               httpOnly := true } ∧
      (Token w r).1.wroteStatus = some 302 ∧
      ("Location".data, if thenParam r = [] then "/".data else thenParam r)
        ∈ (Token w r).1.wireHeaders) := by
  constructor
  · intro ht
    have heq : Token w r =
        (handleError w "token parameter is missing".data, none) := by
      unfold Token
      rw [if_pos ht]
    refine ⟨heq, ?_, by omega, by omega⟩
    rw [heq, handleError_of_none _ _ hw]
  · intro ht
    have heq : Token w r =
        (Redirect w (if thenParam r = [] then "/".data else thenParam r) 302,
         some { name := ocgateSessionCookieName, value := tokenParam r,
                cookiePath := "/".data, sameSiteLax := true,
                httpOnly := true }) := by
      unfold Token
      rw [if_neg ht]
    refine ⟨by rw [heq], ?_, ?_⟩
    · rw [heq, redirect_of_none _ _ _ hw]
    · rw [heq, redirect_of_none _ _ _ hw]
      exact List.mem_cons_self _ _

/-- Witness for C8: POST with form fields token=abc123, then=/dash sets the
session cookie to abc123 and redirects 302 to /dash; a POST carrying the
token only in the URL query string likewise sets the cookie (through
FormValue's query fallback) and redirects 302. -/
theorem c8_manual_token_endpoint_witness :
    ((Token ResponseWriter.empty exFormPost).2 =
      some { name := ocgateSessionCookieName, value := tokenParam exFormPost,
             cookiePath := "/".data, sameSiteLax := true,
             httpOnly := true } ∧
     (Token ResponseWriter.empty exFormPost).1.wroteStatus = some 302 ∧
     ("Location".data,
       if thenParam exFormPost = [] then "/".data else thenParam exFormPost)
       ∈ (Token ResponseWriter.empty exFormPost).1.wireHeaders) ∧
    ((Token ResponseWriter.empty exQueryPost).2 =
      some { name := ocgateSessionCookieName, value := tokenParam exQueryPost,
             cookiePath := "/".data, sameSiteLax := true,
             httpOnly := true } ∧
     (Token ResponseWriter.empty exQueryPost).1.wroteStatus = some 302 ∧
     ("Location".data,
       if thenParam exQueryPost = [] then "/".data else thenParam exQueryPost)
       ∈ (Token ResponseWriter.empty exQueryPost).1.wireHeaders) :=
  ⟨(c8_manual_token_endpoint ResponseWriter.empty exFormPost rfl).2
     (by decide),
   (c8_manual_token_endpoint ResponseWriter.empty exQueryPost rfl).2
     (by decide)⟩

end OcProxy
